import Mathlib

/-!
Shallow embedding of the `hackrfone` crate (`src/lib.rs`): the HackRF One
USB radio control layer.  Machine integers (`u8`, `u16`, `u32`, `u64`) are
modelled as `ℕ` with explicit masking/`% 2^w` where the source performs a
narrowing cast; fallible operations return `Except`; every USB transfer an
operation issues is collected into a `List Cmd` trace so that theorems can
speak about which commands reach the device and in which order.
-/

namespace Hackrfone

/-- USB control transfer direction (`nusb::transfer::Direction`). -/
inductive Direction where
  | dirIn
  | dirOut
deriving DecidableEq, Repr

/-- Transport-level failure reported by the USB stack (`nusb::Error`,
`nusb::transfer::TransferError`, `std::io::Error`), abstract at this layer. -/
inductive TransportError where
  | timedOut
  | other (code : ℕ)
deriving DecidableEq, Repr

/-- `Version`: the three parts of the BCD-coded device version (fields are `u8`). -/
structure Version where
  major : ℕ
  minor : ℕ
  sub_minor : ℕ
deriving DecidableEq, Repr

/-- `Version::from_bcd`: decode `0xJJMN` (`JJ` = major in BCD, `M` = minor,
`N` = sub-minor).  Each `as u8` cast is `% 256`, and the `u8` product/sum
`(major0 * 10) + major1` is likewise reduced `% 256`. -/
def Version.from_bcd (raw : ℕ) : Version :=
  let major0 : ℕ := ((raw &&& 0xF000) >>> 12) % 256
  let major1 : ℕ := ((raw &&& 0x0F00) >>> 8) % 256
  let minor : ℕ := ((raw &&& 0x00F0) >>> 4) % 256
  let sub_minor : ℕ := (raw &&& 0x000F) % 256
  { major := (major0 * 10 + major1) % 256, minor := minor, sub_minor := sub_minor }

/-- `hackrfone::Error`. -/
inductive Error where
  | usb (e : TransportError)
  | usbTransfer (e : TransportError)
  | ioErr (e : TransportError)
  | ctrlTransfer (dir : Direction) (actual expected : ℕ)
  | version (device min : Version)
  | argument
deriving DecidableEq, Repr

/-- One USB transfer issued to the device (bytes are `ℕ` values below 256). -/
inductive Cmd where
  | controlIn (request value index length : ℕ)
  | controlOut (request value index : ℕ) (data : List ℕ)
  | bulkIn (endpoint maxLen : ℕ)
deriving DecidableEq, Repr

-- Vendor request codes (the `Request` enum), restricted to the ones used.
namespace Request

def setTransceiverMode : ℕ := 1

def sampleRateSet : ℕ := 6

def basebandFilterBandwidthSet : ℕ := 7

def boardIdRead : ℕ := 14

def versionStringRead : ℕ := 15

def setFreq : ℕ := 16

def ampEnable : ℕ := 17

def setLnaGain : ℕ := 19

def setVgaGain : ℕ := 20

def setTxvgaGain : ℕ := 21

def antennaEnable : ℕ := 23

def resetRadio : ℕ := 30

def clkoutEnable : ℕ := 32

end Request

-- Transceiver mode values (the `TransceiverMode` enum), restricted to the ones used.
namespace TransceiverMode

def off : ℕ := 0

def receive : ℕ := 1

end TransceiverMode

deriving instance DecidableEq for Except

/-- Reply the transport hands back for a control-in request: either a transfer
error or the raw bytes the device returned (possibly fewer or more than asked). -/
abbrev ControlInReply := Except TransportError (List ℕ)

/-- `read_control::<N>`: one control-in transfer asking for `N` bytes; a reply
whose length differs from `N` is an `Error::CtrlTransfer` length error, a reply
of exactly `N` bytes is returned as-is.  The single command issued is returned
alongside. -/
def read_control (N : ℕ) (request value index : ℕ) (reply : ControlInReply) :
    Except Error (List ℕ) × List Cmd :=
  let cmd := Cmd.controlIn request value index N
  match reply with
  | .error e => (.error (.usbTransfer e), [cmd])
  | .ok buf =>
      if buf.length = N then (.ok buf, [cmd])
      else (.error (.ctrlTransfer .dirIn buf.length N), [cmd])

/-- `write_control`: one control-out transfer; the transport outcome is passed
in and surfaced as `Error::UsbTransfer` on failure. -/
def write_control (request value index : ℕ) (data : List ℕ)
    (outcome : Except TransportError Unit) : Except Error Unit × List Cmd :=
  (match outcome with
   | .error e => .error (.usbTransfer e)
   | .ok _ => .ok (), [Cmd.controlOut request value index data])

/-- The `version_to_u32` helper inside `check_api_version`:
`(major << 16) | (minor << 8) | sub_minor`. -/
def version_to_u32 (v : Version) : ℕ :=
  ((v.major <<< 16) ||| (v.minor <<< 8)) ||| v.sub_minor

/-- `check_api_version`: compare the (already decoded) device version against
`min` by the composite `u32` key; on failure carry both versions. -/
def check_api_version (device min : Version) : Except Error Unit :=
  if version_to_u32 device ≥ version_to_u32 min then .ok ()
  else .error (.version device min)

/-- `freq_params`: split `hz` (a `u64`) into a whole-MHz part and a residual-Hz
part, each `u32::try_from(..).unwrap_or(u32::MAX)` (i.e. saturated at
`4294967295`), each serialized little-endian, MHz part first.  The `to_le`
calls in the source do not change the numeric value. -/
def freq_params (hz : ℕ) : List ℕ :=
  let l_freq_mhz : ℕ :=
    if hz / 1000000 < 4294967296 then hz / 1000000 else 4294967295
  let l_freq_hz : ℕ :=
    if hz - l_freq_mhz * 1000000 < 4294967296 then hz - l_freq_mhz * 1000000
    else 4294967295
  [l_freq_mhz &&& 0xFF, (l_freq_mhz >>> 8) &&& 0xFF,
   (l_freq_mhz >>> 16) &&& 0xFF, (l_freq_mhz >>> 24) &&& 0xFF,
   l_freq_hz &&& 0xFF, (l_freq_hz >>> 8) &&& 0xFF,
   (l_freq_hz >>> 16) &&& 0xFF, (l_freq_hz >>> 24) &&& 0xFF]

/-- `device_version`: decode the 16-bit packed version from the cached USB
device descriptor. -/
def device_version (descVersion : ℕ) : Version :=
  Version.from_bcd descVersion

/-- `board_id`: a one-byte control-in read of `BoardIdRead`; `data[0]` is total
here because `read_control` has validated the length. -/
def board_id (reply : ControlInReply) : Except Error ℕ × List Cmd :=
  match read_control 1 Request.boardIdRead 0 0 reply with
  | (.error e, t) => (.error e, t)
  | (.ok buf, t) => (.ok buf.headI, t)

/-- `set_freq`: serialize `hz` with `freq_params` and send it as `SetFreq`. -/
def set_freq (hz : ℕ) (wr : Except TransportError Unit) :
    Except Error Unit × List Cmd :=
  write_control Request.setFreq 0 0 (freq_params hz) wr

/-- `set_amp_enable`: `AmpEnable` with `value = en as u16`. -/
def set_amp_enable (en : Bool) (wr : Except TransportError Unit) :
    Except Error Unit × List Cmd :=
  write_control Request.ampEnable (if en then 1 else 0) 0 [] wr

/-- `set_baseband_filter_bandwidth`: the low half of `hz` rides in the request
`value` field and the high half in the `index` field; the payload is empty. -/
def set_baseband_filter_bandwidth (hz : ℕ) (wr : Except TransportError Unit) :
    Except Error Unit × List Cmd :=
  write_control Request.basebandFilterBandwidthSet (hz &&& 0xFFFF) (hz >>> 16) [] wr

/-- Round-half-to-even of the nonnegative fraction `n / d` (with `d ≠ 0`) to a
natural number: the IEEE-754 default rounding applied to a scaled significand. -/
def roundHalfEven (n d : ℕ) : ℕ :=
  let q := n / d
  let r := n - q * d
  if 2 * r < d then q
  else if d < 2 * r then q + 1
  else if q % 2 = 0 then q else q + 1

/-- Multiply the fraction `n / d` by 2 until it reaches `2^23`, decrementing
the binary exponent `e`; explicit fuel keeps the recursion structural. -/
def scaleUp : ℕ → ℕ → ℕ → ℤ → ℕ × ℕ × ℤ
  | 0, n, d, e => (n, d, e)
  | fuel + 1, n, d, e =>
      if n < 2 ^ 23 * d then scaleUp fuel (2 * n) d (e - 1) else (n, d, e)

/-- Divide the fraction `n / d` by 2 until it drops below `2^24`, incrementing
the binary exponent `e`; explicit fuel keeps the recursion structural. -/
def scaleDown : ℕ → ℕ → ℕ → ℤ → ℕ × ℕ × ℤ
  | 0, n, d, e => (n, d, e)
  | fuel + 1, n, d, e =>
      if 2 ^ 24 * d ≤ n then scaleDown fuel n (2 * d) (e + 1) else (n, d, e)

/-- Round the nonnegative fraction `n / d` (with `d ≠ 0`) to the nearest
IEEE-754 binary32 value (24-bit significand, round to nearest, ties to even),
returned as an unreduced fraction.  The fraction is scaled into
`[2^23, 2^24)` times a power of two, the scaled significand is rounded
half-to-even, and the power of two is reapplied.  Every value arising in this
development lies far inside the binary32 normal range, so the subnormal and
overflow thresholds need not be modelled; the fuel of 300 covers the full
binary32 exponent range. -/
def roundF32 (n d : ℕ) : ℕ × ℕ :=
  if n = 0 then (0, 1)
  else
    let s := scaleUp 300 n d 0
    let s2 := scaleDown 300 s.1 s.2.1 s.2.2
    let m := roundHalfEven s2.1 s2.2.1
    let e := s2.2.2
    if 0 ≤ e then (m * 2 ^ e.toNat, 1) else (m, 2 ^ (-e).toNat)

/-- The bandwidth argument `set_sample_rate` computes:
`(0.75 * (hz as f32) / (div as f32)) as u32`, with every `f32` operation
rounding to nearest-even and the final `as u32` truncating toward zero and
saturating.  `div = 0` yields an IEEE infinity when the numerator is positive
(saturating to `u32::MAX` under `as u32`) and NaN when it is zero (cast to
`0`). -/
def auto_bandwidth (hz div : ℕ) : ℕ :=
  let x := roundF32 hz 1
  let y := roundF32 (3 * x.1) (4 * x.2)
  let d := roundF32 div 1
  if d.1 = 0 then (if y.1 = 0 then 0 else 4294967295)
  else
    let z := roundF32 (y.1 * d.2) (y.2 * d.1)
    min (z.1 / z.2) 4294967295

/-- `set_sample_rate`: send `hz` and `div` little-endian in one 8-byte
`SampleRateSet` payload (the `to_le` calls are value-level no-ops), then
automatically set the baseband filter bandwidth to the `f32`-computed 75%
value.  `wr1`/`wr2` are the transport outcomes of the two writes. -/
def set_sample_rate (hz div : ℕ) (wr1 wr2 : Except TransportError Unit) :
    Except Error Unit × List Cmd :=
  let buf : List ℕ :=
    [hz &&& 0xFF, (hz >>> 8) &&& 0xFF, (hz >>> 16) &&& 0xFF, (hz >>> 24) &&& 0xFF,
     div &&& 0xFF, (div >>> 8) &&& 0xFF, (div >>> 16) &&& 0xFF, (div >>> 24) &&& 0xFF]
  match write_control Request.sampleRateSet 0 0 buf wr1 with
  | (.error e, t) => (.error e, t)
  | (.ok _, t) =>
      match set_baseband_filter_bandwidth (auto_bandwidth hz div) wr2 with
      | (r, t2) => (r, t ++ t2)

/-- `set_lna_gain`: reject `gain > 40` before any transfer; otherwise one
control-in with `index = gain & !0x07` (`!` on `u16`, so the mask is
`0xFFF8`) returning a single status byte, `0` meaning the device rejected
the value. -/
def set_lna_gain (gain : ℕ) (reply : ControlInReply) :
    Except Error Unit × List Cmd :=
  if gain > 40 then (.error .argument, [])
  else
    match read_control 1 Request.setLnaGain 0 (gain &&& 0xFFF8) reply with
    | (.error e, t) => (.error e, t)
    | (.ok buf, t) => (if buf.headI = 0 then .error .argument else .ok (), t)

/-- `set_vga_gain`: reject `gain > 62`; otherwise as `set_lna_gain` with
`index = gain & !0b1` (mask `0xFFFE`). -/
def set_vga_gain (gain : ℕ) (reply : ControlInReply) :
    Except Error Unit × List Cmd :=
  if gain > 62 then (.error .argument, [])
  else
    match read_control 1 Request.setVgaGain 0 (gain &&& 0xFFFE) reply with
    | (.error e, t) => (.error e, t)
    | (.ok buf, t) => (if buf.headI = 0 then .error .argument else .ok (), t)

/-- `set_txvga_gain`: reject `gain > 47`; otherwise as the other gain setters
but with the gain sent unmasked. -/
def set_txvga_gain (gain : ℕ) (reply : ControlInReply) :
    Except Error Unit × List Cmd :=
  if gain > 47 then (.error .argument, [])
  else
    match read_control 1 Request.setTxvgaGain 0 gain reply with
    | (.error e, t) => (.error e, t)
    | (.ok buf, t) => (if buf.headI = 0 then .error .argument else .ok (), t)

/-- `set_antenna_enable`: `AntennaEnable` with `value = value as u16`. -/
def set_antenna_enable (value : ℕ) (wr : Except TransportError Unit) :
    Except Error Unit × List Cmd :=
  write_control Request.antennaEnable (value % 256) 0 [] wr

/-- `set_clkout_enable`: version gate `Version::from_bcd(0x0103)` first, then
`ClkoutEnable` with `value = en as u16`; nothing is sent when the gate fails. -/
def set_clkout_enable (deviceVersion : Version) (en : Bool)
    (wr : Except TransportError Unit) : Except Error Unit × List Cmd :=
  match check_api_version deviceVersion (Version.from_bcd 0x0103) with
  | .error e => (.error e, [])
  | .ok _ => write_control Request.clkoutEnable (if en then 1 else 0) 0 [] wr

-- The two typestate tags (`UnknownMode` / `RxMode`), as a value-level enum
-- standing for the two instantiations of the `MODE` type parameter.
inductive Mode where
  | unknownMode
  | rxMode
deriving DecidableEq, Repr

/-- `reset`: version gate `Version::from_bcd(0x0102)` first, then the `Reset`
command; on success the consumed handle is rebuilt tagged `UnknownMode`.
Nothing is sent when the gate fails. -/
def resetRadio (deviceVersion : Version) (wr : Except TransportError Unit) :
    Except Error Mode × List Cmd :=
  match check_api_version deviceVersion (Version.from_bcd 0x0102) with
  | .error e => (.error e, [])
  | .ok _ =>
      match write_control Request.resetRadio 0 0 [] wr with
      | (.error e, t) => (.error e, t)
      | (.ok _, t) => (.ok Mode.unknownMode, t)

/-- `set_transceiver_mode`: `SetTransceiverMode` with the mode in `value`. -/
def set_transceiver_mode (mode : ℕ) (wr : Except TransportError Unit) :
    Except Error Unit × List Cmd :=
  write_control Request.setTransceiverMode mode 0 [] wr

/-- `into_rx_mode`: send `SetTransceiverMode(Receive)`; on success the
consumed handle is rebuilt tagged `RxMode`. -/
def into_rx_mode (wr : Except TransportError Unit) :
    Except Error Mode × List Cmd :=
  match set_transceiver_mode TransceiverMode.receive wr with
  | (.error e, t) => (.error e, t)
  | (.ok _, t) => (.ok Mode.rxMode, t)

/-- `stop_rx` (RX mode only): send `SetTransceiverMode(Off)`; on success the
consumed handle is rebuilt tagged `UnknownMode`. -/
def stop_rx (wr : Except TransportError Unit) :
    Except Error Mode × List Cmd :=
  match set_transceiver_mode TransceiverMode.off wr with
  | (.error e, t) => (.error e, t)
  | (.ok _, t) => (.ok Mode.unknownMode, t)

/-- `rx` (RX mode only): claim bulk-in endpoint `0x81`, allocate a
`131072`-byte zeroed buffer, perform one read of up to that MTU into it, and
truncate to the number of bytes actually transferred.  `ep` is the outcome of
claiming the endpoint, `readOutcome` the outcome of the single read (`Read`
copies `min (data.length) 131072` bytes into the buffer). -/
def rx (ep : Except TransportError Unit)
    (readOutcome : Except TransportError (List ℕ)) :
    Except Error (List ℕ) × List Cmd :=
  let mtu : ℕ := 131072
  match ep with
  | .error e => (.error (.usb e), [])
  | .ok _ =>
      let cmd := Cmd.bulkIn 0x81 mtu
      match readOutcome with
      | .error e => (.error (.ioErr e), [cmd])
      | .ok data =>
          let n := min data.length mtu
          let buf := data.take n ++ (List.replicate mtu 0).drop n
          (.ok (buf.take n), [cmd])

-- Outcome of running an operation whose source can reach a `panic!` path:
-- either a normal `Result` or an abort.
inductive RunResult (α : Type) where
  | ok (val : α)
  | err (e : Error)
  | panicked
deriving DecidableEq

/-- `version`: one direct control-in of `VersionStringRead` asking for 16
bytes, then the slice expression `&buf[0..16]`, which panics (indexes out of
bounds) whenever the reply holds fewer than 16 bytes.  The UTF-8-lossy
conversion of the 16 bytes is not modelled further; the result carries the
raw byte prefix. -/
def version_string_read (reply : ControlInReply) :
    RunResult (List ℕ) × List Cmd :=
  let cmd := Cmd.controlIn Request.versionStringRead 0 0 16
  match reply with
  | .error e => (.err (.usbTransfer e), [cmd])
  | .ok buf =>
      if 16 ≤ buf.length then (.ok (buf.take 16), [cmd])
      else (.panicked, [cmd])

/-- `iq_to_cplx_i8`'s `as i8` reinterpretation of a byte (two's complement);
faithful for inputs below 256, the range of `u8`. -/
def u8_as_i8 (b : ℕ) : ℤ :=
  if b < 128 then (b : ℤ) else (b : ℤ) - 256

/-- `iq_to_cplx_i8`: the I/Q byte pair as a complex integer `(re, im)`. -/
def iq_to_cplx_i8 (i q : ℕ) : ℤ × ℤ :=
  (u8_as_i8 i, u8_as_i8 q)

/-- `iq_to_cplx_f32`: `i as i8 as f32`; the `i8 → f32` cast is exact for every
`i8`, so it is modelled as the embedding into `ℚ`. -/
def iq_to_cplx_f32 (i q : ℕ) : ℚ × ℚ :=
  ((u8_as_i8 i : ℚ), (u8_as_i8 q : ℚ))

-- The public session operations of the crate (the methods of the three
-- `impl` blocks of `HackRfOne`, constructors excluded).
inductive Op where
  | opDeviceVersion
  | opSetTimeout
  | opBoardId
  | opVersionStringRead
  | opSetFreq
  | opSetAmpEnable
  | opSetBasebandFilterBandwidth
  | opSetSampleRate
  | opSetLnaGain
  | opSetVgaGain
  | opSetTxvgaGain
  | opSetAntennaEnable
  | opSetClkoutEnable
  | opReset
  | opIntoRxMode
  | opRx
  | opStopRx
deriving DecidableEq, Fintype, Repr

/-- Which operations the `impl HackRfOne<RxMode>` block defines (`rx` and
`stop_rx`); every other public method lives in the `MODE`-generic
`impl<MODE> HackRfOne<MODE>` block. -/
def inRxOnlyImpl : Op → Bool
  | .opRx => true
  | .opStopRx => true
  | _ => false

/-- Rust method resolution over the two `impl` blocks: an operation can be
invoked on a session tagged `m` iff its `impl` block applies to `m`; the
generic block applies to both tags. -/
def available (op : Op) (m : Mode) : Bool :=
  if inRxOnlyImpl op then m == .rxMode else true

/-- The configuration setters, as the spec enumerates them: frequency, sample
rate, bandwidth, the three gains, and the amp/antenna/clkout enables. -/
def isConfigSetter : Op → Bool
  | .opSetFreq => true
  | .opSetSampleRate => true
  | .opSetBasebandFilterBandwidth => true
  | .opSetLnaGain => true
  | .opSetVgaGain => true
  | .opSetTxvgaGain => true
  | .opSetAmpEnable => true
  | .opSetAntennaEnable => true
  | .opSetClkoutEnable => true
  | _ => false

/-- The device identification reads: board id, firmware version string, and
the descriptor-decoded device version. -/
def isIdentRead : Op → Bool
  | .opBoardId => true
  | .opVersionStringRead => true
  | .opDeviceVersion => true
  | _ => false

/-- Little-endian 4-byte serialization of an (already saturated) 32-bit value
as the spec words it: byte `i` is `x / 256^i % 256`. -/
def le32_spec (x : ℕ) : List ℕ :=
  [x % 256, x / 256 % 256, x / 65536 % 256, x / 16777216 % 256]

/-- `encode_frequency` as the spec words it: whole-MHz part and residual-Hz
part, each saturated to the 32-bit maximum, each little-endian, MHz first. -/
def encode_frequency_spec (hz : ℕ) : List ℕ :=
  let mhz := min (hz / 1000000) 4294967295
  let res := min (hz - mhz * 1000000) 4294967295
  le32_spec mhz ++ le32_spec res

lemma and_shl_shr (n m k : ℕ) : (n &&& (m <<< k)) >>> k = (n >>> k) &&& m := by
  apply Nat.eq_of_testBit_eq
  intro i
  simp [Nat.testBit_and, Nat.testBit_shiftRight, Nat.testBit_shiftLeft,
    Nat.le_add_right, Nat.add_sub_cancel_left]

lemma and_255_eq_mod (y : ℕ) : y &&& 255 = y % 256 := by
  simpa using Nat.and_pow_two_sub_one_eq_mod y 8

lemma sat_u32_eq_min (a : ℕ) :
    (if a < 4294967296 then a else 4294967295) = min a 4294967295 := by
  split <;> omega

/-- C5: `freq_params` places the saturated whole-megahertz part little-endian
in bytes 0–3 and the saturated residual-hertz part little-endian in bytes
4–7, matching the spec-side `encode_frequency_spec`; the spec's concrete
vectors all hold, including the saturation of `u64::MAX` to all-`0xFF`. -/
theorem c5_freq_params (hz : ℕ) (hhz : hz < 2 ^ 64) :
    freq_params hz = encode_frequency_spec hz
  ∧ freq_params 0 = List.replicate 8 0
  ∧ freq_params 915000000 = [0x93, 0x03, 0, 0, 0, 0, 0, 0]
  ∧ freq_params 123456789 = [0x7B, 0, 0, 0, 0x55, 0xF8, 0x06, 0]
  ∧ freq_params (2 ^ 64 - 1) = List.replicate 8 255 := by
  refine ⟨?_, by decide, by decide, by decide, by decide⟩
  simp only [freq_params, encode_frequency_spec, le32_spec, sat_u32_eq_min,
    and_255_eq_mod, Nat.shiftRight_eq_div_pow]
  norm_num

/-- C5 witness: the theorem applied at `hz = 915000000`. -/
theorem c5_freq_params_w :
    freq_params 915000000 = encode_frequency_spec 915000000
  ∧ freq_params 0 = List.replicate 8 0
  ∧ freq_params 915000000 = [0x93, 0x03, 0, 0, 0, 0, 0, 0]
  ∧ freq_params 123456789 = [0x7B, 0, 0, 0, 0x55, 0xF8, 0x06, 0]
  ∧ freq_params (2 ^ 64 - 1) = List.replicate 8 255 :=
  c5_freq_params 915000000 (by norm_num)

/-- C6: `Version::from_bcd` is total on 16-bit values and realizes exactly the
nibble decomposition the spec gives — `major = 10*((raw>>12)&0xF) +
((raw>>8)&0xF)`, `minor = (raw>>4)&0xF`, `sub_minor = raw&0xF` — together
with the four concrete decodings. -/
theorem c6_from_bcd (raw : ℕ) (h : raw < 65536) :
    Version.from_bcd raw
      = ⟨10 * ((raw >>> 12) &&& 0xF) + ((raw >>> 8) &&& 0xF),
         (raw >>> 4) &&& 0xF, raw &&& 0xF⟩
  ∧ Version.from_bcd 0x1234 = ⟨12, 3, 4⟩
  ∧ Version.from_bcd 0x4321 = ⟨43, 2, 1⟩
  ∧ Version.from_bcd 0x0200 = ⟨2, 0, 0⟩
  ∧ Version.from_bcd 0x0110 = ⟨1, 1, 0⟩ := by
  refine ⟨?_, by decide, by decide, by decide, by decide⟩
  have h12 : (raw &&& 0xF000) >>> 12 = (raw >>> 12) &&& 0xF := by
    simpa using and_shl_shr raw 15 12
  have h8 : (raw &&& 0x0F00) >>> 8 = (raw >>> 8) &&& 0xF := by
    simpa using and_shl_shr raw 15 8
  have h4 : (raw &&& 0x00F0) >>> 4 = (raw >>> 4) &&& 0xF := by
    simpa using and_shl_shr raw 15 4
  have b12 : (raw >>> 12) &&& 0xF ≤ 15 := Nat.and_le_right
  have b8 : (raw >>> 8) &&& 0xF ≤ 15 := Nat.and_le_right
  have b4 : (raw >>> 4) &&& 0xF ≤ 15 := Nat.and_le_right
  have b0 : raw &&& 0xF ≤ 15 := Nat.and_le_right
  simp only [Version.from_bcd, h12, h8, h4, Version.mk.injEq]
  refine ⟨?_, ?_, ?_⟩ <;> omega

/-- C6 witness: the theorem applied at `raw = 0x1234` and `raw = 0x0110`. -/
theorem c6_from_bcd_w :
    Version.from_bcd 0x1234 = ⟨12, 3, 4⟩ ∧ Version.from_bcd 0x0110 = ⟨1, 1, 0⟩ :=
  ⟨(c6_from_bcd 0x1234 (by norm_num)).2.1,
   (c6_from_bcd 0x0110 (by norm_num)).2.2.2.2⟩

/-- C7: `check_api_version` succeeds exactly when the composite key
`(major<<16)|(minor<<8)|sub_minor` of the device version is at least that of
the required minimum (the boundary is inclusive), and on failure it returns
`Error::Version` carrying both the device version and the minimum; the spec's
1.1.9-vs-1.2.0 and 1.2.0-vs-1.2.0 cases follow. -/
theorem c7_check_api_version (d m : Version) :
    (check_api_version d m = .ok () ↔ version_to_u32 m ≤ version_to_u32 d)
  ∧ (version_to_u32 d < version_to_u32 m →
      check_api_version d m = .error (.version d m))
  ∧ check_api_version ⟨1, 2, 0⟩ ⟨1, 2, 0⟩ = .ok ()
  ∧ check_api_version ⟨1, 1, 9⟩ ⟨1, 2, 0⟩
      = .error (.version ⟨1, 1, 9⟩ ⟨1, 2, 0⟩) := by
  refine ⟨?_, ?_, by decide, by decide⟩
  · rw [check_api_version]
    rcases le_or_lt (version_to_u32 m) (version_to_u32 d) with h | h
    · simp [h]
    · simp [h, Nat.not_le.2 h]
  · intro h
    rw [check_api_version, if_neg (by omega)]

/-- C7 witness: the theorem applied at device 1.1.9 against minimum 1.2.0. -/
theorem c7_check_api_version_w :
    check_api_version ⟨1, 1, 9⟩ ⟨1, 2, 0⟩
      = .error (.version ⟨1, 1, 9⟩ ⟨1, 2, 0⟩) :=
  (c7_check_api_version ⟨1, 1, 9⟩ ⟨1, 2, 0⟩).2.1 (by decide)

/-- C1 counterexample: `set_freq` is a configuration setter, yet it is
defined in the `MODE`-generic `impl` block, so a `RxMode`-tagged session can
invoke it — the claim that no configuration setter exists on the
Receive-tagged type is false. -/
theorem c1_counterexample :
    isConfigSetter Op.opSetFreq = true
  ∧ available Op.opSetFreq Mode.rxMode = true := by decide

/-- C1 (amended): the streaming read `rx` and `stop_rx` are exactly the
operations unavailable on an `UnknownMode` session (they are the `RxMode`-only
`impl`); every other public operation — in particular every configuration
setter, the identification reads, `reset`, and `into_rx_mode` — lives in the
`MODE`-generic `impl` and is therefore callable on both tags, Receive
included. -/
theorem c1_mode_availability :
    (∀ op : Op,
      available op Mode.unknownMode = !(op == Op.opRx || op == Op.opStopRx))
  ∧ (∀ op : Op, available op Mode.rxMode = true)
  ∧ ([Op.opSetFreq, Op.opSetSampleRate, Op.opSetBasebandFilterBandwidth,
      Op.opSetLnaGain, Op.opSetVgaGain, Op.opSetTxvgaGain, Op.opSetAmpEnable,
      Op.opSetAntennaEnable, Op.opSetClkoutEnable].all
        (fun op => isConfigSetter op && available op Mode.rxMode)) = true
  ∧ ([Op.opBoardId, Op.opVersionStringRead, Op.opDeviceVersion,
      Op.opReset, Op.opIntoRxMode].all
        (fun op => available op Mode.unknownMode && available op Mode.rxMode))
      = true := by decide

/-- C2 counterexample: the gates decode `0x0103`/`0x0102` to versions 1.0.3
and 1.0.2, not 1.3.0 and 1.2.0.  A device at version 1.1.0 — below both
claimed minima by the composite key — nevertheless passes both gates: the
clock-out enable and the reset are issued and succeed. -/
theorem c2_counterexample :
    version_to_u32 ⟨1, 1, 0⟩ < version_to_u32 ⟨1, 3, 0⟩
  ∧ version_to_u32 ⟨1, 1, 0⟩ < version_to_u32 ⟨1, 2, 0⟩
  ∧ set_clkout_enable ⟨1, 1, 0⟩ true (.ok ())
      = (.ok (), [Cmd.controlOut Request.clkoutEnable 1 0 []])
  ∧ resetRadio ⟨1, 1, 0⟩ (.ok ())
      = (.ok Mode.unknownMode, [Cmd.controlOut Request.resetRadio 0 0 []]) := by
  decide

/-- C2 (amended): clock-out enable is gated on `Version::from_bcd(0x0103)` =
version 1.0.3 and reset on `Version::from_bcd(0x0102)` = version 1.0.2; below
the minimum each returns the unsupported-firmware error carrying the device
version and the minimum and issues no command, and at or above it each issues
exactly its command. -/
theorem c2_version_gates (v : Version) (en : Bool)
    (wr : Except TransportError Unit) :
    (version_to_u32 v < version_to_u32 (Version.from_bcd 0x0103) →
      set_clkout_enable v en wr
        = (.error (.version v (Version.from_bcd 0x0103)), []))
  ∧ (version_to_u32 (Version.from_bcd 0x0103) ≤ version_to_u32 v →
      (set_clkout_enable v en wr).2
        = [Cmd.controlOut Request.clkoutEnable (if en then 1 else 0) 0 []])
  ∧ (version_to_u32 v < version_to_u32 (Version.from_bcd 0x0102) →
      resetRadio v wr = (.error (.version v (Version.from_bcd 0x0102)), []))
  ∧ (version_to_u32 (Version.from_bcd 0x0102) ≤ version_to_u32 v →
      (resetRadio v wr).2 = [Cmd.controlOut Request.resetRadio 0 0 []])
  ∧ Version.from_bcd 0x0103 = ⟨1, 0, 3⟩
  ∧ Version.from_bcd 0x0102 = ⟨1, 0, 2⟩ := by
  refine ⟨?_, ?_, ?_, ?_, by decide, by decide⟩
  · intro h
    rw [set_clkout_enable, check_api_version, if_neg (by omega)]
  · intro h
    rw [set_clkout_enable, check_api_version, if_pos (by omega)]
    rfl
  · intro h
    rw [resetRadio, check_api_version, if_neg (by omega)]
  · intro h
    rw [resetRadio, check_api_version, if_pos (by omega)]
    cases wr <;> rfl

/-- C2 witness: the amended theorem applied below (1.0.0) and at (1.0.3 /
1.0.2) the two gate boundaries. -/
theorem c2_version_gates_w :
    set_clkout_enable ⟨1, 0, 0⟩ true (.ok ())
      = (.error (.version ⟨1, 0, 0⟩ (Version.from_bcd 0x0103)), [])
  ∧ (set_clkout_enable ⟨1, 0, 3⟩ true (.ok ())).2
      = [Cmd.controlOut Request.clkoutEnable (if true then 1 else 0) 0 []]
  ∧ resetRadio ⟨1, 0, 0⟩ (.ok ())
      = (.error (.version ⟨1, 0, 0⟩ (Version.from_bcd 0x0102)), [])
  ∧ (resetRadio ⟨1, 0, 2⟩ (.ok ())).2
      = [Cmd.controlOut Request.resetRadio 0 0 []] :=
  ⟨(c2_version_gates ⟨1, 0, 0⟩ true (.ok ())).1 (by decide),
   (c2_version_gates ⟨1, 0, 3⟩ true (.ok ())).2.1 (by decide),
   (c2_version_gates ⟨1, 0, 0⟩ true (.ok ())).2.2.1 (by decide),
   (c2_version_gates ⟨1, 0, 2⟩ true (.ok ())).2.2.2.1 (by decide)⟩

/-- C8: contrary to the no-panic policy, `version()` slices `buf[0..16]`
without checking the reply length, so a control-in reply of fewer than 16
bytes (here: empty, and 15 bytes) makes it panic instead of returning an
`Err`; a full 16-byte reply is returned normally. -/
theorem c8_version_panics :
    (version_string_read (.ok [])).1 = .panicked
  ∧ (version_string_read (.ok (List.replicate 15 0))).1 = .panicked
  ∧ (version_string_read (.ok (List.replicate 16 7))).1
      = .ok (List.replicate 16 7) := by decide

/-- C10: both sample decoders reinterpret each byte as signed 8-bit
two's-complement — the decoded component is congruent to the byte mod 256 and
lies in `[-128, 128)`, the float decoder agrees with the integer decoder
exactly — and the pair `(255, 1)` decodes to `(-1, 1)` in both. -/
theorem c10_iq_decoders (i q : ℕ) (hi : i < 256) (hq : q < 256) :
    ((iq_to_cplx_i8 i q).1 % 256 = (i : ℤ)
      ∧ -128 ≤ (iq_to_cplx_i8 i q).1 ∧ (iq_to_cplx_i8 i q).1 < 128)
  ∧ ((iq_to_cplx_i8 i q).2 % 256 = (q : ℤ)
      ∧ -128 ≤ (iq_to_cplx_i8 i q).2 ∧ (iq_to_cplx_i8 i q).2 < 128)
  ∧ iq_to_cplx_f32 i q
      = (((iq_to_cplx_i8 i q).1 : ℚ), ((iq_to_cplx_i8 i q).2 : ℚ))
  ∧ iq_to_cplx_i8 255 1 = (-1, 1)
  ∧ iq_to_cplx_f32 255 1 = (-1, 1) := by
  have key : ∀ b : ℕ, b < 256 →
      u8_as_i8 b % 256 = (b : ℤ) ∧ -128 ≤ u8_as_i8 b ∧ u8_as_i8 b < 128 := by
    intro b hb
    unfold u8_as_i8
    split_ifs <;> refine ⟨?_, ?_, ?_⟩ <;> omega
  exact ⟨key i hi, key q hq, rfl, by decide, by decide⟩

/-- C10 witness: the theorem applied at the byte pair `(255, 1)`. -/
theorem c10_iq_decoders_w :
    iq_to_cplx_i8 255 1 = (-1, 1)
  ∧ iq_to_cplx_f32 255 1 = (-1, 1)
  ∧ (iq_to_cplx_i8 255 1).1 % 256 = (255 : ℤ) :=
  ⟨(c10_iq_decoders 255 1 (by norm_num) (by norm_num)).2.2.2.1,
   (c10_iq_decoders 255 1 (by norm_num) (by norm_num)).2.2.2.2,
   (c10_iq_decoders 255 1 (by norm_num) (by norm_num)).1.1⟩

/-- C3 counterexample: the bandwidth side effect is computed in `f32`.  At
`hz = 16777219`, `div = 1` the `u32 → f32` conversion rounds `hz` up to
`16777220`, so the bandwidth-set command carries `12582915`
(`value = 3`, `index = 192`), while `floor(0.75 × 16777219 / 1) = 12582914`. -/
theorem c3_counterexample :
    auto_bandwidth 16777219 1 = 12582915
  ∧ 3 * 16777219 / 4 = 12582914
  ∧ (set_sample_rate 16777219 1 (.ok ()) (.ok ())).2
      = [Cmd.controlOut Request.sampleRateSet 0 0 [3, 0, 0, 1, 1, 0, 0, 0],
         Cmd.controlOut Request.basebandFilterBandwidthSet 3 192 []] := by
  decide

/-- C3 (amended): when the sample-rate write succeeds, `set_sample_rate`
issues the sample-rate command followed by exactly one bandwidth-set command,
whose argument (recoverable from the `value`/`index` fields) is
`(0.75 × hz / div)` evaluated in IEEE-754 binary32 arithmetic and truncated
— `auto_bandwidth` — which agrees with `floor(0.75 × hz / div)` when the
computation is exact, as in the spec's `hz = 20000000`, `div = 2` example
giving `7500000`, though not for every input. -/
theorem c3_auto_bandwidth (hz div : ℕ) (wr2 : Except TransportError Unit) :
    (set_sample_rate hz div (.ok ()) wr2).2
      = [Cmd.controlOut Request.sampleRateSet 0 0
           [hz &&& 0xFF, (hz >>> 8) &&& 0xFF,
            (hz >>> 16) &&& 0xFF, (hz >>> 24) &&& 0xFF,
            div &&& 0xFF, (div >>> 8) &&& 0xFF,
            (div >>> 16) &&& 0xFF, (div >>> 24) &&& 0xFF],
         Cmd.controlOut Request.basebandFilterBandwidthSet
           (auto_bandwidth hz div &&& 0xFFFF) (auto_bandwidth hz div >>> 16) []]
  ∧ ((set_sample_rate hz div (.ok ()) wr2).2.countP
        (fun c => match c with
          | Cmd.controlOut r _ _ _ => r == Request.basebandFilterBandwidthSet
          | _ => false)) = 1
  ∧ (auto_bandwidth hz div &&& 0xFFFF) + (auto_bandwidth hz div >>> 16) * 65536
      = auto_bandwidth hz div
  ∧ auto_bandwidth 20000000 2 = 7500000
  ∧ auto_bandwidth 20000000 2 = 3 * 20000000 / (4 * 2) := by
  refine ⟨rfl, rfl, ?_, by decide, by decide⟩
  · have h1 : auto_bandwidth hz div &&& 0xFFFF = auto_bandwidth hz div % 65536 := by
      simpa using Nat.and_pow_two_sub_one_eq_mod (auto_bandwidth hz div) 16
    have h2 : auto_bandwidth hz div >>> 16 = auto_bandwidth hz div / 65536 := by
      simpa using Nat.shiftRight_eq_div_pow (auto_bandwidth hz div) 16
    omega

lemma and_FFF8_eq (g : ℕ) (h : g ≤ 40) : g &&& 0xFFF8 = g / 8 * 8 := by
  interval_cases g <;> rfl

lemma and_FFFE_eq (g : ℕ) (h : g ≤ 62) : g &&& 0xFFFE = g / 2 * 2 := by
  interval_cases g <;> rfl

lemma read_control_trace (N request value index : ℕ) (reply : ControlInReply) :
    (read_control N request value index reply).2
      = [Cmd.controlIn request value index N] := by
  cases reply with
  | error e => rfl
  | ok buf =>
      simp only [read_control]
      split <;> rfl

/-- C4: each gain setter rejects an out-of-range gain with `Error::Argument`
before any transfer (empty trace); in range, the single control-in carries
the gain with its low 3 bits cleared (LNA), its low bit cleared (VGA), or
unmasked (TX-VGA), a status byte of `0` maps to `Error::Argument`, any
nonzero status byte to success, and the boundary values 40/62/47 pass the
bounds check. -/
theorem c4_gain_setters (gain b : ℕ) (reply : ControlInReply) :
    (40 < gain → set_lna_gain gain reply = (.error .argument, []))
  ∧ (gain ≤ 40 →
        (set_lna_gain gain reply).2
          = [Cmd.controlIn Request.setLnaGain 0 (gain / 8 * 8) 1]
      ∧ (set_lna_gain gain (.ok [0])).1 = .error .argument
      ∧ (b ≠ 0 → (set_lna_gain gain (.ok [b])).1 = .ok ()))
  ∧ (62 < gain → set_vga_gain gain reply = (.error .argument, []))
  ∧ (gain ≤ 62 →
        (set_vga_gain gain reply).2
          = [Cmd.controlIn Request.setVgaGain 0 (gain / 2 * 2) 1]
      ∧ (set_vga_gain gain (.ok [0])).1 = .error .argument
      ∧ (b ≠ 0 → (set_vga_gain gain (.ok [b])).1 = .ok ()))
  ∧ (47 < gain → set_txvga_gain gain reply = (.error .argument, []))
  ∧ (gain ≤ 47 →
        (set_txvga_gain gain reply).2
          = [Cmd.controlIn Request.setTxvgaGain 0 gain 1]
      ∧ (set_txvga_gain gain (.ok [0])).1 = .error .argument
      ∧ (b ≠ 0 → (set_txvga_gain gain (.ok [b])).1 = .ok ())) := by
  refine ⟨?_, ?_, ?_, ?_, ?_, ?_⟩
  · intro h
    rw [set_lna_gain, if_pos h]
  · intro h
    refine ⟨?_, ?_, ?_⟩
    · rw [set_lna_gain, if_neg (by omega), and_FFF8_eq gain h]
      rcases hrc : read_control 1 Request.setLnaGain 0 (gain / 8 * 8) reply
        with ⟨r, t⟩
      have ht : t = [Cmd.controlIn Request.setLnaGain 0 (gain / 8 * 8) 1] := by
        have := read_control_trace 1 Request.setLnaGain 0 (gain / 8 * 8) reply
        rw [hrc] at this
        exact this
      cases r <;> simp [ht]
    · rw [set_lna_gain, if_neg (by omega)]
      rfl
    · intro hb
      rw [set_lna_gain, if_neg (by omega)]
      show (if b = 0 then (Except.error Error.argument : Except Error Unit)
        else .ok ()) = .ok ()
      rw [if_neg hb]
  · intro h
    rw [set_vga_gain, if_pos h]
  · intro h
    refine ⟨?_, ?_, ?_⟩
    · rw [set_vga_gain, if_neg (by omega), and_FFFE_eq gain h]
      rcases hrc : read_control 1 Request.setVgaGain 0 (gain / 2 * 2) reply
        with ⟨r, t⟩
      have ht : t = [Cmd.controlIn Request.setVgaGain 0 (gain / 2 * 2) 1] := by
        have := read_control_trace 1 Request.setVgaGain 0 (gain / 2 * 2) reply
        rw [hrc] at this
        exact this
      cases r <;> simp [ht]
    · rw [set_vga_gain, if_neg (by omega)]
      rfl
    · intro hb
      rw [set_vga_gain, if_neg (by omega)]
      show (if b = 0 then (Except.error Error.argument : Except Error Unit)
        else .ok ()) = .ok ()
      rw [if_neg hb]
  · intro h
    rw [set_txvga_gain, if_pos h]
  · intro h
    refine ⟨?_, ?_, ?_⟩
    · rw [set_txvga_gain, if_neg (by omega)]
      rcases hrc : read_control 1 Request.setTxvgaGain 0 gain reply with ⟨r, t⟩
      have ht : t = [Cmd.controlIn Request.setTxvgaGain 0 gain 1] := by
        have := read_control_trace 1 Request.setTxvgaGain 0 gain reply
        rw [hrc] at this
        exact this
      cases r <;> simp [ht]
    · rw [set_txvga_gain, if_neg (by omega)]
      rfl
    · intro hb
      rw [set_txvga_gain, if_neg (by omega)]
      show (if b = 0 then (Except.error Error.argument : Except Error Unit)
        else .ok ()) = .ok ()
      rw [if_neg hb]

/-- C4 witness: the theorem applied at the bound-adjacent gains 41/40, 63/62,
48/47 with status bytes 0 and 1. -/
theorem c4_gain_setters_w :
    set_lna_gain 41 (.ok [1]) = (.error .argument, [])
  ∧ (set_lna_gain 40 (.ok [1])).2 = [Cmd.controlIn Request.setLnaGain 0 (40 / 8 * 8) 1]
  ∧ (set_lna_gain 40 (.ok [0])).1 = .error .argument
  ∧ (set_lna_gain 40 (.ok [1])).1 = .ok ()
  ∧ set_vga_gain 63 (.ok [1]) = (.error .argument, [])
  ∧ (set_vga_gain 62 (.ok [1])).1 = .ok ()
  ∧ set_txvga_gain 48 (.ok [1]) = (.error .argument, [])
  ∧ (set_txvga_gain 47 (.ok [1])).1 = .ok () :=
  ⟨(c4_gain_setters 41 1 (.ok [1])).1 (by omega),
   ((c4_gain_setters 40 1 (.ok [1])).2.1 (by omega)).1,
   ((c4_gain_setters 40 1 (.ok [1])).2.1 (by omega)).2.1,
   ((c4_gain_setters 40 1 (.ok [1])).2.1 (by omega)).2.2 (by omega),
   (c4_gain_setters 63 1 (.ok [1])).2.2.1 (by omega),
   ((c4_gain_setters 62 1 (.ok [1])).2.2.2.1 (by omega)).2.2 (by omega),
   (c4_gain_setters 48 1 (.ok [1])).2.2.2.2.1 (by omega),
   ((c4_gain_setters 47 1 (.ok [1])).2.2.2.2.2 (by omega)).2.2 (by omega)⟩

/-- C9: `rx` claims the bulk-in endpoint `0x81` and, whatever the read
outcome, issues exactly one bulk-in transfer requesting `131072` bytes; a
successful read of `data` (length at most the MTU, short reads included)
returns exactly `data`, and every successful result has length at most
`131072`. -/
theorem c9_rx (data : List ℕ) (h : data.length ≤ 131072) :
    rx (.ok ()) (.ok data) = (.ok data, [Cmd.bulkIn 0x81 131072])
  ∧ (∀ outcome : Except TransportError (List ℕ),
      (rx (.ok ()) outcome).2 = [Cmd.bulkIn 0x81 131072])
  ∧ (∀ outcome : Except TransportError (List ℕ), ∀ res : List ℕ,
      (rx (.ok ()) outcome).1 = .ok res → res.length ≤ 131072) := by
  refine ⟨?_, ?_, ?_⟩
  · have hn : min data.length 131072 = data.length := Nat.min_eq_left h
    simp only [rx, hn, List.take_length]
    rw [List.take_left' (by simp)]
  · intro outcome
    cases outcome <;> rfl
  · intro outcome res heq
    cases outcome with
    | error e => exact Except.noConfusion heq
    | ok d =>
        have h2 : ((d.take (min d.length 131072)
              ++ (List.replicate 131072 0).drop (min d.length 131072)).take
                (min d.length 131072)) = res := Except.ok.inj heq
        rw [← h2, List.length_take]
        omega

/-- C9 witness: the theorem applied at the 3-byte short read `[1, 2, 3]`. -/
theorem c9_rx_w :
    rx (.ok ()) (.ok [1, 2, 3]) = (.ok [1, 2, 3], [Cmd.bulkIn 0x81 131072]) :=
  (c9_rx [1, 2, 3] (by norm_num)).1

end Hackrfone
